import Mathlib

/-!
Shallow embedding of the VMI eviction reconciler
(src/controllers/vmi_controller.go) of cluster-api-provider-kubevirt.

External API calls (management-cluster gets and deletes, remote-cluster node
get, cordon and drain, kubeconfig parsing and client construction) are
modelled by a `World` of oracle outcomes; each embedded function returns its
result together with the list of external calls it performed, so that
"operation X was never attempted" is a statement about the trace.
Durations are in seconds (`Nat`); `20 * time.Second` becomes `20`.
-/

/-- Kubernetes API errors, as far as the controller distinguishes them:
`apierrors.IsNotFound`, `apierrors.IsAlreadyExists`, anything else. -/
inductive KError where
  | notFound
  | alreadyExists
  | other (msg : String)
  deriving DecidableEq, Repr

/-- Embeds `apierrors.IsNotFound`. -/
def KError.isNotFound : KError → Bool
  | KError.notFound => true
  | _ => false

/-- Embeds `apierrors.IsAlreadyExists`. -/
def KError.isAlreadyExists : KError → Bool
  | KError.alreadyExists => true
  | _ => false

/-- Embeds `client.ObjectKey` (namespace + name). -/
structure ObjectKey where
  Namespace : String
  Name : String
  deriving DecidableEq, Repr

/-- Embeds `kubevirtv1.VirtualMachineInstanceStatus`, restricted to the field
the controller reads. -/
structure VmiStatus where
  EvacuationNodeName : String
  deriving DecidableEq, Repr

/-- Embeds `kubevirtv1.VirtualMachineInstance`, restricted to the fields the
controller reads: the label map and the status. -/
structure VirtualMachineInstance where
  Labels : List (String × String)
  Status : VmiStatus
  deriving DecidableEq, Repr

/-- Embeds the corev1 object reference held in `cluster.Spec.InfrastructureRef`. -/
structure ObjectRef where
  Namespace : String
  Name : String
  deriving DecidableEq, Repr

/-- Embeds `clusterv1.ClusterSpec`, restricted to the infrastructure reference. -/
structure ClusterSpec where
  InfrastructureRef : ObjectRef
  deriving DecidableEq, Repr

/-- Embeds `clusterv1.Cluster`, restricted to the spec field the controller reads. -/
structure Cluster where
  Spec : ClusterSpec
  deriving DecidableEq, Repr

/-- Embeds `corev1.Secret`, restricted to its data map. -/
structure Secret where
  Data : List (String × String)
  deriving DecidableEq, Repr

/-- Embeds the remote `corev1.Node`.  `Unreachable` stands for the result of
`noderefutil.IsNodeUnreachable` (derived from the node taints in the library). -/
structure Node where
  Name : String
  Unreachable : Bool
  deriving DecidableEq, Repr

/-- Embeds `noderefutil.IsNodeUnreachable` (external library collaborator). -/
def IsNodeUnreachable (node : Node) : Bool :=
  node.Unreachable

/-- Embeds the configuration of the `kubedrain.Helper` built by `drainNode`.
Fields unset in the Go composite literal keep the Go zero value, in particular
`SkipWaitForDeleteTimeoutSeconds := 0`. -/
structure DrainHelper where
  Force : Bool
  IgnoreAllDaemonSets : Bool
  DeleteEmptyDirData : Bool
  GracePeriodSeconds : Int
  Timeout : Nat
  SkipWaitForDeleteTimeoutSeconds : Nat := 0
  deriving DecidableEq, Repr

/-- Embeds `metav1.DeletionPropagation`. -/
inductive Propagation where
  | foreground
  | background
  | orphan
  deriving DecidableEq, Repr

/-- One external API call made by the controller. -/
inductive Event where
  | getVmiCall
  | getClusterCall (ns nm : String)
  | getSecretCall (ns nm : String)
  | getNodeCall (nm : String)
  | cordonCall (d : DrainHelper) (nm : String)
  | drainCall (d : DrainHelper) (nm : String)
  | deleteVmiCall (p : Propagation)
  deriving DecidableEq, Repr

/-- Embeds `ctrl.Result`. -/
structure CtrlResult where
  RequeueAfter : Nat := 0
  deriving DecidableEq, Repr

/-- Oracle outcomes for every external call one reconcile invocation can make.
Successful construction steps with no value the model needs return `Unit`. -/
structure World where
  vmiResult : Except KError VirtualMachineInstance
  clusterResult : String → String → Except KError Cluster
  secretResult : String → String → Except KError Secret
  restConfigResult : String → Except KError Unit
  clientResult : Except KError Unit
  nodeResult : String → Except KError Node
  cordonResult : Node → Option KError
  drainResult : String → Option KError
  deleteResult : Option KError

/-- Embeds `infrav1.KubevirtMachineNamespaceLabel`. -/
def KubevirtMachineNamespaceLabel : String :=
  "capk.cluster.x-k8s.io/kubevirt-machine-namespace"

/-- Embeds `clusterv1.ClusterLabelName`. -/
def ClusterLabelName : String :=
  "cluster.x-k8s.io/cluster-name"

/-- Go map lookup `labels[key]` returning `(value, ok)`. -/
def getLabel (labels : List (String × String)) (key : String) : Option String :=
  (labels.find? (fun p => p.1 == key)).map (fun p => p.2)

/-- Embeds `getKubeconfigForWorkloadCluster`: fetch the secret named
`<infrastructureRef.Name>-kubeconfig` in the infrastructure reference
namespace, then read its "value" data key.  The secret fetch it performs is
recorded by its caller (`drainNode`), which always reaches it first. -/
def getKubeconfigForWorkloadCluster (w : World) (cluster : Cluster) :
    Except KError String :=
  let ns := cluster.Spec.InfrastructureRef.Namespace
  let nm := cluster.Spec.InfrastructureRef.Name ++ "-kubeconfig"
  match w.secretResult ns nm with
  | Except.error e => Except.error e
  | Except.ok kubeconfigSecret =>
    match getLabel kubeconfigSecret.Data "value" with
    | none =>
      Except.error (KError.other "error retrieving kubeconfig data: secret value key is missing")
    | some value => Except.ok value

/-- Embeds `getCluster`: read the cluster namespace and cluster name labels
off the VMI, then fetch the Cluster object, returning the performed
management-cluster get calls as the trace. -/
def getCluster (w : World) (vmi : VirtualMachineInstance) :
    Except KError Cluster × List Event :=
  match getLabel vmi.Labels KubevirtMachineNamespaceLabel with
  | none =>
    (Except.error (KError.other ("cannot find the cluster namespace from the VM; missing "
      ++ KubevirtMachineNamespaceLabel ++ " label")), [])
  | some clusterNS =>
    match getLabel vmi.Labels ClusterLabelName with
    | none =>
      (Except.error (KError.other ("cannot find the cluster name from the VM; missing "
        ++ ClusterLabelName ++ " label")), [])
    | some clusterName =>
      match w.clusterResult clusterNS clusterName with
      | Except.error _ =>
        (Except.error (KError.other ("cannot find the cluster " ++ clusterNS ++ "/" ++ clusterName)),
         [Event.getClusterCall clusterNS clusterName])
      | Except.ok cluster =>
        (Except.ok cluster, [Event.getClusterCall clusterNS clusterName])

/-- The `kubedrain.Helper` composite literal of `drainNode` before the
unreachable-node adjustment (logging callbacks are not modelled). -/
def baseDrainer : DrainHelper :=
  { Force := true
    IgnoreAllDaemonSets := true
    DeleteEmptyDirData := true
    GracePeriodSeconds := -1
    Timeout := 20 }

/-- Embeds `drainNode`: build the remote client from the workload-cluster
kubeconfig, fetch the node, cordon it and drain it, returning
`(done, retryAfter, err)` together with the external calls performed. -/
def drainNode (w : World) (cluster : Cluster) (nodeName : String) :
    (Bool × Nat × Option KError) × List Event :=
  let evSec : List Event := [Event.getSecretCall cluster.Spec.InfrastructureRef.Namespace
    (cluster.Spec.InfrastructureRef.Name ++ "-kubeconfig")]
  match getKubeconfigForWorkloadCluster w cluster with
  | Except.error _ => ((false, 0, none), evSec)
  | Except.ok kubeconfigData =>
    match w.restConfigResult kubeconfigData with
    | Except.error _ => ((false, 0, none), evSec)
    | Except.ok _ =>
      match w.clientResult with
      | Except.error _ => ((false, 0, none), evSec)
      | Except.ok _ =>
        let ev2 := evSec ++ [Event.getNodeCall nodeName]
        match w.nodeResult nodeName with
        | Except.error e =>
          if e.isNotFound then ((true, 0, none), ev2)
          else ((false, 0, some (KError.other ("unable to get node " ++ nodeName))), ev2)
        | Except.ok node =>
          let drainer :=
            if IsNodeUnreachable node then
              { baseDrainer with SkipWaitForDeleteTimeoutSeconds := 60 * 5 }
            else baseDrainer
          let ev3 := ev2 ++ [Event.cordonCall drainer node.Name]
          match w.cordonResult node with
          | some _ =>
            ((false, 0, some (KError.other ("unable to cordon node " ++ nodeName))), ev3)
          | none =>
            let ev4 := ev3 ++ [Event.drainCall drainer node.Name]
            match w.drainResult node.Name with
            | some _ => ((false, 20, none), ev4)
            | none => ((true, 0, none), ev4)

/-- Embeds `Reconcile`: fetch the VMI, check `EvacuationNodeName`, resolve the
cluster, drain the node and finally delete the VMI with foreground
propagation, returning `(ctrl.Result, error)` with the call trace. -/
def Reconcile (w : World) (req : ObjectKey) :
    (CtrlResult × Option KError) × List Event :=
  let ev0 : List Event := [Event.getVmiCall]
  match w.vmiResult with
  | Except.error e =>
    if e.isNotFound then (({ RequeueAfter := 0 }, none), ev0)
    else (({ RequeueAfter := 0 }, some e), ev0)
  | Except.ok vmi =>
    let nodeName := vmi.Status.EvacuationNodeName
    if nodeName.length == 0 then
      (({ RequeueAfter := 0 }, none), ev0)
    else
      let gc := getCluster w vmi
      match gc.1 with
      | Except.error e => (({ RequeueAfter := 0 }, some e), ev0 ++ gc.2)
      | Except.ok cluster =>
        let dRes := drainNode w cluster nodeName
        let nodeDrained := dRes.1.1
        let retryDuration := dRes.1.2.1
        let err := dRes.1.2.2
        if err.isSome || !nodeDrained then
          (({ RequeueAfter := retryDuration }, err), ev0 ++ gc.2 ++ dRes.2)
        else
          let evDel : List Event := [Event.deleteVmiCall Propagation.foreground]
          match w.deleteResult with
          | some e =>
            if !e.isAlreadyExists then
              (({ RequeueAfter := 20 }, some e), ev0 ++ gc.2 ++ dRes.2 ++ evDel)
            else
              (({ RequeueAfter := 0 }, none), ev0 ++ gc.2 ++ dRes.2 ++ evDel)
          | none => (({ RequeueAfter := 0 }, none), ev0 ++ gc.2 ++ dRes.2 ++ evDel)

/-- A VMI marked for eviction with both cluster labels set. -/
def vmiHappy : VirtualMachineInstance :=
  { Labels := [(KubevirtMachineNamespaceLabel, "ns1"), (ClusterLabelName, "c1")]
    Status := { EvacuationNodeName := "node-7" } }

/-- The cluster descriptor the labels of `vmiHappy` resolve to. -/
def clusterHappy : Cluster :=
  { Spec := { InfrastructureRef := { Namespace := "ns1", Name := "infra1" } } }

/-- A well-formed kubeconfig secret. -/
def secretHappy : Secret :=
  { Data := [("value", "kubeconfig-bytes")] }

/-- The reachable target node. -/
def nodeHappy : Node :=
  { Name := "node-7", Unreachable := false }

/-- A request key for the concrete runs. -/
def reqHappy : ObjectKey :=
  { Namespace := "ns1", Name := "vmi-1" }

/-- A world in which every external call succeeds. -/
def happyWorld : World :=
  { vmiResult := Except.ok vmiHappy
    clusterResult := fun _ _ => Except.ok clusterHappy
    secretResult := fun _ _ => Except.ok secretHappy
    restConfigResult := fun _ => Except.ok ()
    clientResult := Except.ok ()
    nodeResult := fun _ => Except.ok nodeHappy
    cordonResult := fun _ => none
    drainResult := fun _ => none
    deleteResult := none }


/-- Decidable equality on `Except`, used by the concrete-input evaluations. -/
instance {e a : Type} [DecidableEq e] [DecidableEq a] : DecidableEq (Except e a) := fun x y =>
  match x, y with
  | Except.ok v, Except.ok v2 => decidable_of_iff (v = v2) (by simp)
  | Except.error v, Except.error v2 => decidable_of_iff (v = v2) (by simp)
  | Except.ok _, Except.error _ => isFalse (by simp)
  | Except.error _, Except.ok _ => isFalse (by simp)

/-- A world in which everything succeeds except the final VMI delete, which
fails with a not-found error (the VMI disappeared after the drain). -/
def deleteGoneWorld : World :=
  { happyWorld with deleteResult := some KError.notFound }

/-- A world in which the remote cordon call fails. -/
def cordonFailWorld : World :=
  { happyWorld with cordonResult := fun _ => some (KError.other "cordon refused") }

/-- A VMI with valid labels but no evacuation node name set. -/
def vmiNoEvac : VirtualMachineInstance :=
  { Labels := vmiHappy.Labels, Status := { EvacuationNodeName := "" } }

/-- A world serving `vmiNoEvac`. -/
def noEvacWorld : World :=
  { happyWorld with vmiResult := Except.ok vmiNoEvac }

/-- A world in which the remote node is already gone (not-found on get). -/
def nodeGoneWorld : World :=
  { happyWorld with nodeResult := fun _ => Except.error KError.notFound }

/-- A world in which the remote drain call fails (for example, times out). -/
def drainFailWorld : World :=
  { happyWorld with drainResult := fun _ => some (KError.other "drain timed out") }

/-- A world in which the kubeconfig credential secret is missing. -/
def secretGoneWorld : World :=
  { happyWorld with secretResult := fun _ _ => Except.error KError.notFound }

/-- The target node, classified unreachable. -/
def nodeUnreachable : Node :=
  { Name := "node-7", Unreachable := true }

/-- A world in which the fetched node is classified unreachable. -/
def unreachableWorld : World :=
  { happyWorld with nodeResult := fun _ => Except.ok nodeUnreachable }

/-- A VMI carrying no labels at all. -/
def vmiNoLabels : VirtualMachineInstance :=
  { Labels := [], Status := { EvacuationNodeName := "node-7" } }

/-- The trace of `getCluster` holds management-cluster Cluster gets only. -/
theorem deleteVmi_not_in_getCluster (w : World) (vmi : VirtualMachineInstance)
    (p : Propagation) : Event.deleteVmiCall p ∉ (getCluster w vmi).2 := by
  unfold getCluster
  repeat' split
  all_goals simp

/-- The trace of `getCluster` holds no drain calls. -/
theorem drainCall_not_in_getCluster (w : World) (vmi : VirtualMachineInstance)
    (d : DrainHelper) (s : String) : Event.drainCall d s ∉ (getCluster w vmi).2 := by
  unfold getCluster
  repeat' split
  all_goals simp

/-- The trace of `drainNode` holds remote-cluster calls and the secret get only,
never a VMI delete. -/
theorem deleteVmi_not_in_drainNode (w : World) (cluster : Cluster) (nodeName : String)
    (p : Propagation) : Event.deleteVmiCall p ∉ (drainNode w cluster nodeName).2 := by
  unfold drainNode
  repeat' split
  all_goals simp

/-- C1: refuted on the code.  The spec says a not-found error from the VMI
delete is treated as success, but `Reconcile` tests the delete error with
`apierrors.IsAlreadyExists` rather than `IsNotFound`, so when drain is done
and the delete fails not-found, reconcile returns a 20-second requeue carrying
the error instead of done with no error and no requeue. -/
theorem reconcile_notFound_delete_requeues :
    (Reconcile deleteGoneWorld reqHappy).1 = ({ RequeueAfter := 20 }, some KError.notFound) := by
  decide

/-- C10: the `(done, retryAfter, err)` result of `drainNode` satisfies the
shape invariant: a non-nil error forces `done = false` and zero retry; a
non-zero retry forces `done = false` and nil error; `done = true` forces zero
retry and nil error. -/
theorem drainNode_result_shape (w : World) (cluster : Cluster) (nodeName : String) :
    ((drainNode w cluster nodeName).1.2.2 ≠ none →
      (drainNode w cluster nodeName).1.1 = false ∧ (drainNode w cluster nodeName).1.2.1 = 0) ∧
    ((drainNode w cluster nodeName).1.2.1 ≠ 0 →
      (drainNode w cluster nodeName).1.1 = false ∧ (drainNode w cluster nodeName).1.2.2 = none) ∧
    ((drainNode w cluster nodeName).1.1 = true →
      (drainNode w cluster nodeName).1.2.1 = 0 ∧ (drainNode w cluster nodeName).1.2.2 = none) := by
  unfold drainNode
  repeat' split
  all_goals simp

/-- Witness for C10 at a concrete failing cordon: the error is non-nil, so
`done` is false and the retry duration is zero. -/
theorem drainNode_result_shape_witness :
    (drainNode cordonFailWorld clusterHappy "node-7").1.1 = false ∧
    (drainNode cordonFailWorld clusterHappy "node-7").1.2.1 = 0 :=
  (drainNode_result_shape cordonFailWorld clusterHappy "node-7").1 (by decide)

/-- C7: when `EvacuationNodeName` is empty, `Reconcile` returns success with
no requeue and no error, and its trace is the single VMI get: no cluster
resolution, no remote-cluster call and no deletion is performed. -/
theorem empty_evacuation_noop (w : World) (req : ObjectKey)
    (vmi : VirtualMachineInstance)
    (hvmi : w.vmiResult = Except.ok vmi)
    (hempty : vmi.Status.EvacuationNodeName = "") :
    Reconcile w req = (({ RequeueAfter := 0 }, none), [Event.getVmiCall]) := by
  simp [Reconcile, hvmi, hempty]

/-- Witness for C7 at a concrete VMI not marked for eviction. -/
theorem empty_evacuation_noop_witness :
    Reconcile noEvacWorld reqHappy = (({ RequeueAfter := 0 }, none), [Event.getVmiCall]) :=
  empty_evacuation_noop noEvacWorld reqHappy vmiNoEvac (by decide) (by decide)

/-- C8: `getCluster` fails with a descriptive error when the cluster-namespace
label or the cluster-name label is absent; with both labels present it fetches
the Cluster by that namespace and name, failing when the get fails; and any
`getCluster` failure is surfaced by `Reconcile` as an error with no requeue
delay (the caller's default backoff). -/
theorem getCluster_contract (w : World) (req : ObjectKey) :
    (∀ vmi : VirtualMachineInstance,
      getLabel vmi.Labels KubevirtMachineNamespaceLabel = none →
      (getCluster w vmi).1 = Except.error (KError.other
        ("cannot find the cluster namespace from the VM; missing "
          ++ KubevirtMachineNamespaceLabel ++ " label"))) ∧
    (∀ (vmi : VirtualMachineInstance) (clusterNS : String),
      getLabel vmi.Labels KubevirtMachineNamespaceLabel = some clusterNS →
      getLabel vmi.Labels ClusterLabelName = none →
      (getCluster w vmi).1 = Except.error (KError.other
        ("cannot find the cluster name from the VM; missing "
          ++ ClusterLabelName ++ " label"))) ∧
    (∀ (vmi : VirtualMachineInstance) (clusterNS clusterName : String) (c : Cluster),
      getLabel vmi.Labels KubevirtMachineNamespaceLabel = some clusterNS →
      getLabel vmi.Labels ClusterLabelName = some clusterName →
      w.clusterResult clusterNS clusterName = Except.ok c →
      (getCluster w vmi).1 = Except.ok c) ∧
    (∀ (vmi : VirtualMachineInstance) (clusterNS clusterName : String) (e : KError),
      getLabel vmi.Labels KubevirtMachineNamespaceLabel = some clusterNS →
      getLabel vmi.Labels ClusterLabelName = some clusterName →
      w.clusterResult clusterNS clusterName = Except.error e →
      (getCluster w vmi).1 = Except.error (KError.other
        ("cannot find the cluster " ++ clusterNS ++ "/" ++ clusterName))) ∧
    (∀ (vmi : VirtualMachineInstance) (e : KError),
      w.vmiResult = Except.ok vmi →
      vmi.Status.EvacuationNodeName.length ≠ 0 →
      (getCluster w vmi).1 = Except.error e →
      (Reconcile w req).1 = ({ RequeueAfter := 0 }, some e)) := by
  refine ⟨?_, ?_, ?_, ?_, ?_⟩
  · intro vmi h
    simp [getCluster, h]
  · intro vmi clusterNS h1 h2
    simp [getCluster, h1, h2]
  · intro vmi clusterNS clusterName c h1 h2 h3
    simp [getCluster, h1, h2, h3]
  · intro vmi clusterNS clusterName e h1 h2 h3
    simp [getCluster, h1, h2, h3]
  · intro vmi e hvmi hname hgc
    have hbeq : (vmi.Status.EvacuationNodeName.length == 0) = false := by
      simp [hname]
    simp [Reconcile, hvmi, hbeq, hgc]

/-- Witness for C8 at a VMI with no labels: the namespace-label branch fires. -/
theorem getCluster_contract_witness :
    (getCluster happyWorld vmiNoLabels).1 = Except.error (KError.other
      ("cannot find the cluster namespace from the VM; missing "
        ++ KubevirtMachineNamespaceLabel ++ " label")) :=
  (getCluster_contract happyWorld reqHappy).1 vmiNoLabels (by decide)

/-- C3: when the remote node fetch reports not-found (after the remote client
was built), `drainNode` returns `(true, 0, nil)` and its trace holds only the
secret get and the node get — no cordon and no drain call — and `Reconcile`
then proceeds to the VMI delete. -/
theorem drain_node_notFound (w : World) (req : ObjectKey)
    (vmi : VirtualMachineInstance) (cluster : Cluster) (kc : String) (e : KError)
    (hvmi : w.vmiResult = Except.ok vmi)
    (hname : vmi.Status.EvacuationNodeName.length ≠ 0)
    (hgc : (getCluster w vmi).1 = Except.ok cluster)
    (hkc : getKubeconfigForWorkloadCluster w cluster = Except.ok kc)
    (hrest : w.restConfigResult kc = Except.ok ())
    (hcli : w.clientResult = Except.ok ())
    (hnode : w.nodeResult vmi.Status.EvacuationNodeName = Except.error e)
    (henf : e.isNotFound = true) :
    drainNode w cluster vmi.Status.EvacuationNodeName =
      ((true, 0, none),
       [Event.getSecretCall cluster.Spec.InfrastructureRef.Namespace
          (cluster.Spec.InfrastructureRef.Name ++ "-kubeconfig"),
        Event.getNodeCall vmi.Status.EvacuationNodeName]) ∧
    Event.deleteVmiCall Propagation.foreground ∈ (Reconcile w req).2 := by
  have hbeq : (vmi.Status.EvacuationNodeName.length == 0) = false := by
    simp [hname]
  have hd : drainNode w cluster vmi.Status.EvacuationNodeName =
      ((true, 0, none),
       [Event.getSecretCall cluster.Spec.InfrastructureRef.Namespace
          (cluster.Spec.InfrastructureRef.Name ++ "-kubeconfig"),
        Event.getNodeCall vmi.Status.EvacuationNodeName]) := by
    simp [drainNode, hkc, hrest, hcli, hnode, henf]
  refine ⟨hd, ?_⟩
  simp only [Reconcile, hvmi, hbeq, hgc, hd]
  rcases happy : w.deleteResult with - | e2
  · simp
  · repeat' split
    all_goals simp_all

/-- Witness for C3 at a concrete world whose remote node is already gone. -/
theorem drain_node_notFound_witness :
    drainNode nodeGoneWorld clusterHappy vmiHappy.Status.EvacuationNodeName =
      ((true, 0, none),
       [Event.getSecretCall clusterHappy.Spec.InfrastructureRef.Namespace
          (clusterHappy.Spec.InfrastructureRef.Name ++ "-kubeconfig"),
        Event.getNodeCall vmiHappy.Status.EvacuationNodeName]) ∧
    Event.deleteVmiCall Propagation.foreground ∈ (Reconcile nodeGoneWorld reqHappy).2 :=
  drain_node_notFound nodeGoneWorld reqHappy vmiHappy clusterHappy "kubeconfig-bytes"
    KError.notFound (by decide) (by decide) (by decide) (by decide) (by decide)
    (by decide) (by decide) (by decide)

/-- C4: when the remote drain call fails or times out, `drainNode` returns
`(false, 20, nil)`; `Reconcile` propagates this as a 20-second requeue with no
error and never attempts the VMI delete. -/
theorem drain_failure_requeues (w : World) (req : ObjectKey)
    (vmi : VirtualMachineInstance) (cluster : Cluster) (kc : String)
    (node : Node) (de : KError)
    (hvmi : w.vmiResult = Except.ok vmi)
    (hname : vmi.Status.EvacuationNodeName.length ≠ 0)
    (hgc : (getCluster w vmi).1 = Except.ok cluster)
    (hkc : getKubeconfigForWorkloadCluster w cluster = Except.ok kc)
    (hrest : w.restConfigResult kc = Except.ok ())
    (hcli : w.clientResult = Except.ok ())
    (hnode : w.nodeResult vmi.Status.EvacuationNodeName = Except.ok node)
    (hcordon : w.cordonResult node = none)
    (hdrain : w.drainResult node.Name = some de) :
    (drainNode w cluster vmi.Status.EvacuationNodeName).1 = (false, 20, none) ∧
    (Reconcile w req).1 = ({ RequeueAfter := 20 }, none) ∧
    ∀ p : Propagation, Event.deleteVmiCall p ∉ (Reconcile w req).2 := by
  have hbeq : (vmi.Status.EvacuationNodeName.length == 0) = false := by
    simp [hname]
  have hd1 : (drainNode w cluster vmi.Status.EvacuationNodeName).1 = (false, 20, none) := by
    simp [drainNode, hkc, hrest, hcli, hnode, hcordon, hdrain]
  refine ⟨hd1, ?_, ?_⟩
  · simp [Reconcile, hvmi, hbeq, hgc, hd1]
  · intro p hmem
    have h1 := deleteVmi_not_in_getCluster w vmi p
    have h2 := deleteVmi_not_in_drainNode w cluster vmi.Status.EvacuationNodeName p
    simp [Reconcile, hvmi, hbeq, hgc, hd1, h1, h2] at hmem

/-- Witness for C4 at a concrete world whose remote drain call fails. -/
theorem drain_failure_requeues_witness :
    (drainNode drainFailWorld clusterHappy vmiHappy.Status.EvacuationNodeName).1 =
      (false, 20, none) ∧
    (Reconcile drainFailWorld reqHappy).1 = ({ RequeueAfter := 20 }, none) ∧
    ∀ p : Propagation, Event.deleteVmiCall p ∉ (Reconcile drainFailWorld reqHappy).2 :=
  drain_failure_requeues drainFailWorld reqHappy vmiHappy clusterHappy "kubeconfig-bytes"
    nodeHappy (KError.other "drain timed out") (by decide) (by decide) (by decide)
    (by decide) (by decide) (by decide) (by decide) (by decide) (by decide)

/-- C5: when the remote cordon call fails, `drainNode` returns
`(false, 0, err)` with a non-nil error, `Reconcile` surfaces that same error
with no requeue delay, and neither a drain call nor a VMI delete is attempted. -/
theorem cordon_failure_surfaces_error (w : World) (req : ObjectKey)
    (vmi : VirtualMachineInstance) (cluster : Cluster) (kc : String)
    (node : Node) (ce : KError)
    (hvmi : w.vmiResult = Except.ok vmi)
    (hname : vmi.Status.EvacuationNodeName.length ≠ 0)
    (hgc : (getCluster w vmi).1 = Except.ok cluster)
    (hkc : getKubeconfigForWorkloadCluster w cluster = Except.ok kc)
    (hrest : w.restConfigResult kc = Except.ok ())
    (hcli : w.clientResult = Except.ok ())
    (hnode : w.nodeResult vmi.Status.EvacuationNodeName = Except.ok node)
    (hcordon : w.cordonResult node = some ce) :
    (drainNode w cluster vmi.Status.EvacuationNodeName).1 =
      (false, 0, some (KError.other
        ("unable to cordon node " ++ vmi.Status.EvacuationNodeName))) ∧
    (Reconcile w req).1 = ({ RequeueAfter := 0 }, some (KError.other
      ("unable to cordon node " ++ vmi.Status.EvacuationNodeName))) ∧
    (∀ (d : DrainHelper) (s : String), Event.drainCall d s ∉ (Reconcile w req).2) ∧
    (∀ p : Propagation, Event.deleteVmiCall p ∉ (Reconcile w req).2) := by
  have hbeq : (vmi.Status.EvacuationNodeName.length == 0) = false := by
    simp [hname]
  have hd1 : (drainNode w cluster vmi.Status.EvacuationNodeName).1 =
      (false, 0, some (KError.other
        ("unable to cordon node " ++ vmi.Status.EvacuationNodeName))) := by
    simp [drainNode, hkc, hrest, hcli, hnode, hcordon]
  have hd2 : (drainNode w cluster vmi.Status.EvacuationNodeName).2 =
      [Event.getSecretCall cluster.Spec.InfrastructureRef.Namespace
         (cluster.Spec.InfrastructureRef.Name ++ "-kubeconfig"),
       Event.getNodeCall vmi.Status.EvacuationNodeName,
       Event.cordonCall
         (if IsNodeUnreachable node = true then
           { baseDrainer with SkipWaitForDeleteTimeoutSeconds := 60 * 5 }
          else baseDrainer) node.Name] := by
    simp [drainNode, hkc, hrest, hcli, hnode, hcordon]
  refine ⟨hd1, ?_, ?_, ?_⟩
  · simp [Reconcile, hvmi, hbeq, hgc, hd1]
  · intro d s hmem
    have h1 := drainCall_not_in_getCluster w vmi d s
    simp [Reconcile, hvmi, hbeq, hgc, hd1, hd2, h1] at hmem
  · intro p hmem
    have h1 := deleteVmi_not_in_getCluster w vmi p
    have h2 := deleteVmi_not_in_drainNode w cluster vmi.Status.EvacuationNodeName p
    simp [Reconcile, hvmi, hbeq, hgc, hd1, h1, h2] at hmem

/-- Witness for C5 at a concrete world whose remote cordon call fails. -/
theorem cordon_failure_surfaces_error_witness :
    (drainNode cordonFailWorld clusterHappy vmiHappy.Status.EvacuationNodeName).1 =
      (false, 0, some (KError.other
        ("unable to cordon node " ++ vmiHappy.Status.EvacuationNodeName))) ∧
    (Reconcile cordonFailWorld reqHappy).1 = ({ RequeueAfter := 0 }, some (KError.other
      ("unable to cordon node " ++ vmiHappy.Status.EvacuationNodeName))) ∧
    (∀ (d : DrainHelper) (s : String),
      Event.drainCall d s ∉ (Reconcile cordonFailWorld reqHappy).2) ∧
    (∀ p : Propagation, Event.deleteVmiCall p ∉ (Reconcile cordonFailWorld reqHappy).2) :=
  cordon_failure_surfaces_error cordonFailWorld reqHappy vmiHappy clusterHappy
    "kubeconfig-bytes" nodeHappy (KError.other "cordon refused") (by decide) (by decide)
    (by decide) (by decide) (by decide) (by decide) (by decide) (by decide)

/-- C6: when the credential secret is missing, its "value" data key is
missing, the kubeconfig fails to parse, or the remote client fails to
construct, `Reconcile` returns success with no error and no requeue delay and
never attempts the VMI delete. -/
theorem credential_failure_noop (w : World) (req : ObjectKey)
    (vmi : VirtualMachineInstance) (cluster : Cluster)
    (hvmi : w.vmiResult = Except.ok vmi)
    (hname : vmi.Status.EvacuationNodeName.length ≠ 0)
    (hgc : (getCluster w vmi).1 = Except.ok cluster)
    (hfail :
      (∃ e, w.secretResult cluster.Spec.InfrastructureRef.Namespace
        (cluster.Spec.InfrastructureRef.Name ++ "-kubeconfig") = Except.error e) ∨
      (∃ s, w.secretResult cluster.Spec.InfrastructureRef.Namespace
        (cluster.Spec.InfrastructureRef.Name ++ "-kubeconfig") = Except.ok s ∧
        getLabel s.Data "value" = none) ∨
      (∃ kc e, getKubeconfigForWorkloadCluster w cluster = Except.ok kc ∧
        w.restConfigResult kc = Except.error e) ∨
      (∃ kc e, getKubeconfigForWorkloadCluster w cluster = Except.ok kc ∧
        w.restConfigResult kc = Except.ok () ∧ w.clientResult = Except.error e)) :
    (Reconcile w req).1 = ({ RequeueAfter := 0 }, none) ∧
    ∀ p : Propagation, Event.deleteVmiCall p ∉ (Reconcile w req).2 := by
  have hbeq : (vmi.Status.EvacuationNodeName.length == 0) = false := by
    simp [hname]
  have hd1 : (drainNode w cluster vmi.Status.EvacuationNodeName).1 = (false, 0, none) := by
    rcases hfail with ⟨e, hs⟩ | ⟨s, hs, hv⟩ | ⟨kc, e, hk, hr⟩ | ⟨kc, e, hk, hr, hc⟩
    · simp [drainNode, getKubeconfigForWorkloadCluster, hs]
    · simp [drainNode, getKubeconfigForWorkloadCluster, hs, hv]
    · simp [drainNode, hk, hr]
    · simp [drainNode, hk, hr, hc]
  constructor
  · simp [Reconcile, hvmi, hbeq, hgc, hd1]
  · intro p hmem
    have h1 := deleteVmi_not_in_getCluster w vmi p
    have h2 := deleteVmi_not_in_drainNode w cluster vmi.Status.EvacuationNodeName p
    simp [Reconcile, hvmi, hbeq, hgc, hd1, h1, h2] at hmem

/-- Witness for C6 at a concrete world whose credential secret is missing. -/
theorem credential_failure_noop_witness :
    (Reconcile secretGoneWorld reqHappy).1 = ({ RequeueAfter := 0 }, none) ∧
    ∀ p : Propagation, Event.deleteVmiCall p ∉ (Reconcile secretGoneWorld reqHappy).2 :=
  credential_failure_noop secretGoneWorld reqHappy vmiHappy clusterHappy (by decide)
    (by decide) (by decide) (Or.inl ⟨KError.notFound, by decide⟩)

/-- C2: in every reconcile invocation, a VMI delete appears in the trace only
if `drainNode` returned done with nil error for the resolved cluster and the
evacuation node, and every VMI delete uses foreground propagation. -/
theorem delete_only_after_drain (w : World) (req : ObjectKey) (p : Propagation)
    (h : Event.deleteVmiCall p ∈ (Reconcile w req).2) :
    p = Propagation.foreground ∧
    ∃ (vmi : VirtualMachineInstance) (cluster : Cluster),
      w.vmiResult = Except.ok vmi ∧
      (getCluster w vmi).1 = Except.ok cluster ∧
      (drainNode w cluster vmi.Status.EvacuationNodeName).1.1 = true ∧
      (drainNode w cluster vmi.Status.EvacuationNodeName).1.2.2 = none := by
  simp only [Reconcile] at h
  split at h
  case h_1 e heq =>
    split at h <;> simp at h
  case h_2 vmi heq =>
    split at h
    · simp at h
    · split at h
      case h_1 e heq2 =>
        have h1 := deleteVmi_not_in_getCluster w vmi p
        simp [h1] at h
      case h_2 cluster heq2 =>
        split at h
        case isTrue hcond =>
          have h1 := deleteVmi_not_in_getCluster w vmi p
          have h2 := deleteVmi_not_in_drainNode w cluster vmi.Status.EvacuationNodeName p
          simp [h1, h2] at h
        case isFalse hcond =>
          have hshape : (drainNode w cluster vmi.Status.EvacuationNodeName).1.2.2 = none ∧
              (drainNode w cluster vmi.Status.EvacuationNodeName).1.1 = true := by
            simpa using hcond
          have h1 := deleteVmi_not_in_getCluster w vmi p
          have h2 := deleteVmi_not_in_drainNode w cluster vmi.Status.EvacuationNodeName p
          have hp : p = Propagation.foreground := by
            split at h
            · split at h <;> simp [h1, h2] at h <;> exact h
            · simp [h1, h2] at h
              exact h
          exact ⟨hp, vmi, cluster, heq, heq2, hshape.2, hshape.1⟩

/-- Witness for C2 in the all-success world: a delete is in the trace, so the
drain reported done with nil error, and the propagation is foreground. -/
theorem delete_only_after_drain_witness :
    Propagation.foreground = Propagation.foreground ∧
    ∃ (vmi : VirtualMachineInstance) (cluster : Cluster),
      happyWorld.vmiResult = Except.ok vmi ∧
      (getCluster happyWorld vmi).1 = Except.ok cluster ∧
      (drainNode happyWorld cluster vmi.Status.EvacuationNodeName).1.1 = true ∧
      (drainNode happyWorld cluster vmi.Status.EvacuationNodeName).1.2.2 = none :=
  delete_only_after_drain happyWorld reqHappy Propagation.foreground (by decide)

/-- C9: whenever a cordon or drain call appears in a `drainNode` trace whose
node fetch returned `node`, the drain helper it carries has
`SkipWaitForDeleteTimeoutSeconds` equal to 300 (60 * 5) when the node is
classified unreachable, and to the helper default 0 otherwise. -/
theorem unreachable_skip_wait (w : World) (cluster : Cluster) (nodeName : String)
    (node : Node) (d : DrainHelper) (nm : String)
    (hnode : w.nodeResult nodeName = Except.ok node)
    (hmem : Event.cordonCall d nm ∈ (drainNode w cluster nodeName).2 ∨
            Event.drainCall d nm ∈ (drainNode w cluster nodeName).2) :
    d.SkipWaitForDeleteTimeoutSeconds =
      if IsNodeUnreachable node then 60 * 5 else 0 := by
  rcases hk : getKubeconfigForWorkloadCluster w cluster with e2 | kc2
  · simp only [drainNode, hk] at hmem
    simp at hmem
  · rcases hr : w.restConfigResult kc2 with e3 | u
    · simp only [drainNode, hk, hr] at hmem
      simp at hmem
    · rcases hc : w.clientResult with e4 | u2
      · simp only [drainNode, hk, hr, hc] at hmem
        simp at hmem
      · cases hu : IsNodeUnreachable node
        · rcases hco : w.cordonResult node with - | ce
          · rcases hdr : w.drainResult node.Name with - | de <;>
              simp only [drainNode, hk, hr, hc, hnode, hu, hco, hdr] at hmem <;>
              rcases hmem with hm | hm <;> simp at hm <;>
              simp [hm.1, baseDrainer]
          · simp only [drainNode, hk, hr, hc, hnode, hu, hco] at hmem
            rcases hmem with hm | hm <;> simp at hm
            simp [hm.1, baseDrainer]
        · rcases hco : w.cordonResult node with - | ce
          · rcases hdr : w.drainResult node.Name with - | de <;>
              simp only [drainNode, hk, hr, hc, hnode, hu, hco, hdr] at hmem <;>
              rcases hmem with hm | hm <;> simp at hm <;>
              simp [hm.1, baseDrainer]
          · simp only [drainNode, hk, hr, hc, hnode, hu, hco] at hmem
            rcases hmem with hm | hm <;> simp at hm
            simp [hm.1, baseDrainer]

/-- Witness for C9 at a concrete unreachable node: the cordon call in the
trace carries a helper whose stuck-pod tolerance is 300 seconds. -/
theorem unreachable_skip_wait_witness :
    ({ baseDrainer with
        SkipWaitForDeleteTimeoutSeconds := 60 * 5 } : DrainHelper).SkipWaitForDeleteTimeoutSeconds =
      if IsNodeUnreachable nodeUnreachable then 60 * 5 else 0 :=
  unreachable_skip_wait unreachableWorld clusterHappy "node-7" nodeUnreachable
    { baseDrainer with SkipWaitForDeleteTimeoutSeconds := 60 * 5 } "node-7"
    (by decide) (Or.inl (by decide))
